import Mathlib

/-!
Verification of the `nullable_struct` derive-macro crate.

The crate exposes a single procedural derive macro, `Nullable`.  Given a
struct declaration it emits a companion struct whose fields are wrapped in
`Option`, together with per-field accessor methods and three constructors.

Two layers are embedded here, both translated from `src/lib.rs`:

1. A syntax-level model of the generator itself (`nullable` and
   `generate_setter_and_getter_functions`): the input is a model of
   `syn::DeriveInput`, the output is either the shape of the emitted
   declaration or the panic message (a Rust `panic!` in a proc macro aborts
   the build, which we embed as `Except.error`).

2. A semantic model of the code the macro emits for a struct with named
   fields: the generated struct is a per-field store of `Option` values, and
   the generated methods (`new`, `new_default`, `Default::default`, the
   value accessor `field()`, the presence accessor `get_field()`, and the
   setter `set_field()`) are state-passing functions over that store.
   Rust's `Default::default()` for a field type is embedded as
   `Inhabited.default`, `.clone()` is the identity on Lean values, and an
   `Option<&T>` borrow is embedded as `Option T`.

Rust's `str::to_lowercase` is embedded as per-character lowercasing
(`toLowercase` below); the two agree on ASCII identifiers, which is the
range exercised here.
-/

namespace NullableStruct

/-- A Rust type expression as it appears in a field declaration.  The
generator only ever copies a field's type verbatim or wraps it in
`std::option::Option<_>`, so the model keeps types opaque apart from that
one constructor. -/
inductive Ty where
  | base (s : String) : Ty
  | option (t : Ty) : Ty
deriving DecidableEq

/-- The field list of a struct, mirroring `syn::Fields`: named fields
(`struct S { a: T }`), unnamed tuple fields (`struct S(T);`), or a unit
struct (`struct S;`). -/
inductive Fields where
  | named (fs : List (String × Ty)) : Fields
  | unnamed (ts : List Ty) : Fields
  | unit : Fields
deriving DecidableEq

/-- The data of a derive input, mirroring `syn::Data`. -/
inductive Data where
  | Struct (fields : Fields) : Data
  | Enum : Data
  | Union : Data
deriving DecidableEq

/-- A derive input: the declared type's identifier and its data, mirroring
the parts of `syn::DeriveInput` the macro reads. -/
structure DeriveInput where
  ident : String
  data : Data
deriving DecidableEq

/-- `Fields::iter()` of `syn`: named fields carry their identifier, unnamed
fields carry none, a unit struct yields nothing. -/
def Fields.iter : Fields → List (Option String × Ty)
  | .named fs => fs.map (fun p => (some p.1, p.2))
  | .unnamed ts => ts.map (fun t => ((none : Option String), t))
  | .unit => []

/-- Rust's `str::to_lowercase` as applied to field identifiers, embedded as
per-character lowercasing (the two agree on ASCII identifiers, the range
exercised by the crate). -/
def toLowercase (s : String) : String := ⟨s.data.map Char.toLower⟩

/-- The three method names the macro emits for one field, plus the field's
type.  In the source the value accessor is `pub fn #ident`, i.e. the
declared identifier verbatim, while the presence accessor and the setter
are `get_`/`set_` followed by the lowercased identifier. -/
structure MethodGroup where
  valueAccessor : String
  getter : String
  setter : String
  fieldTy : Ty
deriving DecidableEq

/-- The method group generated for a field with identifier `ident` and type
`ty`, following the `quote!` block in `generate_setter_and_getter_functions`. -/
def mkMethodGroup (ident : String) (ty : Ty) : MethodGroup :=
  { valueAccessor := ident
    getter := "get_" ++ toLowercase ident
    setter := "set_" ++ toLowercase ident
    fieldTy := ty }

/-- The `fields.iter().map(...).collect()` loop of
`generate_setter_and_getter_functions`.  A field with no identifier hits
`.expect("No identifier found for type")`, which panics: the whole
generation aborts with that message and no output. -/
def genMethodsAux : List (Option String × Ty) → Except String (List MethodGroup)
  | [] => .ok []
  | ((none, _)) :: _ => .error "No identifier found for type"
  | ((some id, ty)) :: rest =>
      match genMethodsAux rest with
      | .error e => .error e
      | .ok r => .ok (mkMethodGroup id ty :: r)

/-- `generate_setter_and_getter_functions` from `src/lib.rs`. -/
def generate_setter_and_getter_functions (fields : Fields) :
    Except String (List MethodGroup) :=
  genMethodsAux fields.iter

/-- The shape of the declaration the macro emits: the generated struct's
name, its field list (identifier and stored type, the stored type being the
`Option`-wrapped source type), the positional parameter list of `new`
(identifier and the original type), and the per-field method groups.
`new_default` initialisers, the `Default` impl and method bodies carry no
further degrees of freedom at the syntax level (they are fixed shapes over
this same data), so they are not repeated here; their runtime behaviour is
the second layer below. -/
structure Generated where
  structName : String
  fields : List (Option String × Ty)
  newParams : List (Option String × Ty)
  methods : List MethodGroup
deriving DecidableEq

/-- The `nullable` proc-macro entry point from `src/lib.rs`.  The generated
type's name is the literal text `Nullable` concatenated with the input
identifier.  For a struct input, `generate_setter_and_getter_functions` runs
first (so its panic aborts everything), then the output is assembled from
one pass over the fields.  Any non-struct input hits
`panic!("Only structs are nullable.")`. -/
def nullable (input : DeriveInput) : Except String Generated :=
  let name := input.ident
  let nullable_name := "Nullable" ++ name
  match input.data with
  | .Struct fs =>
      match generate_setter_and_getter_functions fs with
      | .error e => .error e
      | .ok gens =>
          .ok { structName := nullable_name
                fields := fs.iter.map (fun p => (p.1, Ty.option p.2))
                newParams := fs.iter
                methods := gens }
  | _ => .error "Only structs are nullable."

section RuntimeModel

variable (ι : Type) (T : ι → Type)

/-- The state of one instance of a generated nullable struct: each field
holds an `Option` of its declared type (the emitted field declaration is
`#ident: std::option::Option<#ty>`). -/
def NullableState := ∀ i, Option (T i)

variable {ι T}

/-- Generated `new(#(#field_params)*)`: every field is initialised to
`Some(#ident)`, the positional argument for that field. -/
def new (v : ∀ i, T i) : NullableState ι T := fun i => some (v i)

/-- Generated `new_default()`: every field is initialised to
`Some(#ty::default())`. -/
def new_default [∀ i, Inhabited (T i)] : NullableState ι T :=
  fun i => some (Inhabited.default : T i)

/-- Generated `impl Default`: every field is initialised to `None`. -/
def defaultState : NullableState ι T := fun _ => none

/-- Generated value accessor `pub fn #ident(&self) -> #ty`: it evaluates
`self.#ident.clone().unwrap_or_default()`. -/
def field [∀ i, Inhabited (T i)] (i : ι) (s : NullableState ι T) : T i :=
  (s i).getD (Inhabited.default : T i)

/-- Generated presence accessor `pub fn #getter_name(&self) -> Option<&#ty>`:
it evaluates `self.#ident.as_ref()`. -/
def get_field (i : ι) (s : NullableState ι T) : Option (T i) := s i

/-- Generated setter `pub fn #setter_name(&mut self, value: #ty)`: it
executes `self.#ident = Some(value)`, replacing exactly that field. -/
def set_field [DecidableEq ι] (i : ι) (v : T i) (s : NullableState ι T) :
    NullableState ι T :=
  Function.update s i (some v)

/-- Method-call form of the value accessor with explicit state passing: the
method takes `&self`, so the state after the call is the state before it. -/
def field_call [∀ i, Inhabited (T i)] (i : ι) (s : NullableState ι T) :
    T i × NullableState ι T :=
  (field i s, s)

/-- Method-call form of the presence accessor with explicit state passing:
the method takes `&self`, so the state after the call is the state before
it. -/
def get_field_call (i : ι) (s : NullableState ι T) :
    Option (T i) × NullableState ι T :=
  (get_field i s, s)

end RuntimeModel

/-- A concrete derive input used in witnesses, matching the crate's own test
struct `TestStruct { field1: i32, field2: String }`. -/
def exInput : DeriveInput :=
  ⟨"TestStruct", .Struct (.named [("field1", Ty.base "i32"), ("field2", Ty.base "String")])⟩

/-- The declaration shape the generator emits for `exInput`. -/
def exOutput : Generated :=
  { structName := "NullableTestStruct"
    fields := [(some "field1", Ty.option (Ty.base "i32")),
               (some "field2", Ty.option (Ty.base "String"))]
    newParams := [(some "field1", Ty.base "i32"), (some "field2", Ty.base "String")]
    methods := [⟨"field1", "get_field1", "set_field1", Ty.base "i32"⟩,
                ⟨"field2", "get_field2", "set_field2", Ty.base "String"⟩] }

/-- A derive input whose single field has an uppercase letter in its
identifier. -/
def cexUpperInput : DeriveInput :=
  ⟨"S", .Struct (.named [("Field1", Ty.base "i32")])⟩

/-- A derive input that is a tuple-style struct with an empty field list,
i.e. the Rust declaration `struct S();`. -/
def cexEmptyTupleInput : DeriveInput :=
  ⟨"S", .Struct (.unnamed [])⟩

/-- A concrete two-field all-`Int` instance state used in witnesses. -/
def exState : NullableState (Fin 2) (fun _ => Int) := new fun _ => 5

/-! ## Helper lemmas -/

/-- On a list of named fields, the method-generation loop never panics and
produces one method group per field, in order. -/
theorem genMethodsAux_named : ∀ fs : List (String × Ty),
    genMethodsAux (fs.map (fun p => (some p.1, p.2))) =
      .ok (fs.map (fun p => mkMethodGroup p.1 p.2))
  | [] => rfl
  | p :: fs => by
      have ih := genMethodsAux_named fs
      simp only [List.map_cons, genMethodsAux, ih]

/-- Full description of the generator's output on a struct with named
fields. -/
theorem nullable_named (name : String) (fs : List (String × Ty)) :
    nullable ⟨name, .Struct (.named fs)⟩ =
      .ok { structName := "Nullable" ++ name
            fields := fs.map (fun p => (some p.1, Ty.option p.2))
            newParams := fs.map (fun p => (some p.1, p.2))
            methods := fs.map (fun p => mkMethodGroup p.1 p.2) } := by
  simp only [nullable, generate_setter_and_getter_functions, Fields.iter,
    genMethodsAux_named, List.map_map]
  rfl

/-! ## Claim theorems -/

/-- Claim C1: for every generated nullable struct and every tuple of values,
constructing with `new(v1,...,vN)` and then calling the value accessor
`f_i()` returns `v_i` for every field `i`; every field is made present by
`new` (the stored option is `Some v_i`), so no default substitution
occurs. -/
theorem new_then_field {ι : Type} {T : ι → Type} [∀ i, Inhabited (T i)]
    (v : ∀ i, T i) (i : ι) :
    field i (new v) = v i ∧ get_field i (new v) = some (v i) :=
  ⟨rfl, rfl⟩

/-- Claim C2: for every generated nullable struct, every starting state,
every field `i` and every value `v`, calling `set_f_i(v)` then `get_f_i()`
returns `Some v`, and calling `f_i()` after the same `set_f_i(v)` returns
`v`. -/
theorem set_then_read {ι : Type} {T : ι → Type} [DecidableEq ι]
    [∀ i, Inhabited (T i)] (s : NullableState ι T) (i : ι) (v : T i) :
    get_field i (set_field i v s) = some v ∧ field i (set_field i v s) = v := by
  refine ⟨?_, ?_⟩ <;> simp [get_field, set_field, field]

/-- Claim C3: an instance built by the generated `Default` implementation
has every field absent: `get_f_i()` returns `None` and `f_i()` returns the
field type's default value, for every `i`. -/
theorem default_then_read {ι : Type} {T : ι → Type} [∀ i, Inhabited (T i)]
    (i : ι) :
    get_field i (defaultState : NullableState ι T) = none ∧
    field i (defaultState : NullableState ι T) = (Inhabited.default : T i) :=
  ⟨rfl, rfl⟩

/-- Claim C4: an instance built by `new_default()` has every field present
and holding its type's default value: `get_f_i()` returns `Some default` and
`f_i()` returns the default, for every `i`. -/
theorem new_default_then_read {ι : Type} {T : ι → Type} [∀ i, Inhabited (T i)]
    (i : ι) :
    get_field i (new_default : NullableState ι T) = some (Inhabited.default : T i) ∧
    field i (new_default : NullableState ι T) = (Inhabited.default : T i) :=
  ⟨rfl, rfl⟩

/-- Claim C10: the generated setter has the expected frame: `set_f_i(v)`
leaves every other field `j ≠ i` unchanged in both presence and stored
value (the raw stored option, the presence accessor and the value accessor
all agree before and after), and the read operations, which take `&self`,
leave the entire state unchanged. -/
theorem set_field_frame {ι : Type} {T : ι → Type} [DecidableEq ι]
    [∀ i, Inhabited (T i)] (s : NullableState ι T) (i j : ι) (v : T i)
    (h : j ≠ i) :
    set_field i v s j = s j ∧
    get_field j (set_field i v s) = get_field j s ∧
    field j (set_field i v s) = field j s ∧
    (field_call j s).2 = s ∧ (get_field_call j s).2 = s := by
  refine ⟨?_, ?_, ?_, rfl, rfl⟩ <;>
    simp [get_field, set_field, field, Function.update_noteq h]

/-- Witness for C10 at a concrete instance: two `Int` fields, both `5`,
setting field `1` to `42` leaves field `0` untouched. -/
theorem set_field_frame_witness :
    ((0 : Fin 2) ≠ 1) ∧
    (set_field 1 (42 : Int) exState 0 = exState 0 ∧
     get_field 0 (set_field 1 (42 : Int) exState) = get_field 0 exState ∧
     field 0 (set_field 1 (42 : Int) exState) = field 0 exState ∧
     (field_call 0 exState).2 = exState ∧
     (get_field_call 0 exState).2 = exState) :=
  ⟨by decide, set_field_frame exState 1 0 42 (by decide)⟩

/-- Counterexample to claim C5: for the field declared `Field1`, the
generated value accessor is named `Field1` — the declared identifier
verbatim (the macro emits `pub fn #ident`), not the lowercased `field1` the
claim requires, even though the lowercase version exists and differs.  Only
the presence accessor and the setter use the lowercased stem. -/
theorem value_accessor_keeps_case :
    nullable cexUpperInput =
      .ok { structName := "NullableS"
            fields := [(some "Field1", Ty.option (Ty.base "i32"))]
            newParams := [(some "Field1", Ty.base "i32")]
            methods := [⟨"Field1", "get_field1", "set_field1", Ty.base "i32"⟩] } ∧
    toLowercase "Field1" = "field1" ∧ ("Field1" : String) ≠ "field1" :=
  ⟨by rfl, by rfl, by decide⟩

/-- Claim C5 as amended: for every source field, the presence-checked
accessor and the setter are named with the `get_`/`set_` prefixes over the
lowercased field name, but the value accessor is named with the field's
declared identifier verbatim, with no lowercasing. -/
theorem method_names (name : String) (fs : List (String × Ty)) (g : Generated)
    (h : nullable ⟨name, .Struct (.named fs)⟩ = .ok g) :
    g.methods.map (fun m => m.valueAccessor) = fs.map (fun p => p.1) ∧
    g.methods.map (fun m => m.getter) = fs.map (fun p => "get_" ++ toLowercase p.1) ∧
    g.methods.map (fun m => m.setter) = fs.map (fun p => "set_" ++ toLowercase p.1) := by
  rw [nullable_named] at h
  injection h with h
  subst h
  refine ⟨?_, ?_, ?_⟩ <;> simp [mkMethodGroup, List.map_map, Function.comp]

/-- Witness for the amended C5 at the crate's test struct. -/
theorem method_names_witness :
    nullable exInput = .ok exOutput ∧
    (exOutput.methods.map (fun m => m.valueAccessor) =
       ([("field1", Ty.base "i32"), ("field2", Ty.base "String")]).map (fun p => p.1) ∧
     exOutput.methods.map (fun m => m.getter) =
       ([("field1", Ty.base "i32"), ("field2", Ty.base "String")]).map
         (fun p => "get_" ++ toLowercase p.1) ∧
     exOutput.methods.map (fun m => m.setter) =
       ([("field1", Ty.base "i32"), ("field2", Ty.base "String")]).map
         (fun p => "set_" ++ toLowercase p.1)) :=
  ⟨by rfl,
   method_names "TestStruct" [("field1", Ty.base "i32"), ("field2", Ty.base "String")]
     exOutput (by rfl)⟩

/-- Counterexample to claim C6: the Rust declaration `struct S();` — a
tuple-style struct with an empty field list, which is not a plain
named-field record — is accepted by the generator, which emits a complete
(empty) nullable type instead of aborting. -/
theorem empty_tuple_struct_accepted :
    nullable cexEmptyTupleInput =
      .ok { structName := "NullableS", fields := [], newParams := [], methods := [] } := by
  rfl

/-- Claim C6 as amended: the generator aborts with a fatal build-time
failure (emitting no output, since the error carries only a message) if and
only if the input is an enumeration, a union, or a struct with at least one
unnamed field; struct inputs with no fields at all (unit structs and empty
tuple structs) are accepted even though they are not plain named-field
records. -/
theorem nullable_error_characterization (inp : DeriveInput) :
    (∃ e, nullable inp = .error e) ↔
      (inp.data = .Enum ∨ inp.data = .Union ∨
       ∃ t ts, inp.data = .Struct (.unnamed (t :: ts))) := by
  obtain ⟨name, d⟩ := inp
  cases d with
  | Struct fs =>
      cases fs with
      | named l =>
          simp only [nullable, generate_setter_and_getter_functions, Fields.iter,
            genMethodsAux_named]
          simp
      | unnamed ts =>
          cases ts with
          | nil => simp [nullable, generate_setter_and_getter_functions, Fields.iter,
              genMethodsAux]
          | cons t ts => simp [nullable, generate_setter_and_getter_functions, Fields.iter,
              genMethodsAux]
      | unit => simp [nullable, generate_setter_and_getter_functions, Fields.iter,
          genMethodsAux]
  | Enum => simp [nullable]
  | Union => simp [nullable]

/-- Claim C7: for every accepted input, the generated type's name is exactly
the fixed text `Nullable` concatenated with the source type's name — no
other transformation, and in particular no collision check alters it. -/
theorem nullable_struct_name (inp : DeriveInput) (g : Generated)
    (h : nullable inp = .ok g) :
    g.structName = "Nullable" ++ inp.ident := by
  obtain ⟨name, d⟩ := inp
  cases d with
  | Struct fs =>
      cases hg : generate_setter_and_getter_functions fs with
      | error e => simp [nullable, hg] at h
      | ok gens =>
          simp only [nullable, hg] at h
          injection h with h
          subst h
          rfl
  | Enum => simp [nullable] at h
  | Union => simp [nullable] at h

/-- Witness for C7 at the crate's test struct. -/
theorem nullable_struct_name_witness :
    nullable exInput = .ok exOutput ∧
    exOutput.structName = "Nullable" ++ exInput.ident :=
  ⟨by rfl, nullable_struct_name exInput exOutput (by rfl)⟩

/-- Claim C8: for every accepted named-field struct, the generated type
contains exactly the source's fields, in declaration order, with the same
names, each stored as the `Option`-wrapped original type; no field is
added, removed or renamed. -/
theorem nullable_fields_preserved (name : String) (fs : List (String × Ty))
    (g : Generated) (h : nullable ⟨name, .Struct (.named fs)⟩ = .ok g) :
    g.fields = fs.map (fun p => (some p.1, Ty.option p.2)) := by
  rw [nullable_named] at h
  injection h with h
  subst h
  rfl

/-- Witness for C8 at the crate's test struct. -/
theorem nullable_fields_preserved_witness :
    nullable exInput = .ok exOutput ∧
    exOutput.fields =
      ([("field1", Ty.base "i32"), ("field2", Ty.base "String")]).map
        (fun p => (some p.1, Ty.option p.2)) :=
  ⟨by rfl,
   nullable_fields_preserved "TestStruct"
     [("field1", Ty.base "i32"), ("field2", Ty.base "String")] exOutput (by rfl)⟩

/-- Claim C9: the generator is deterministic — its output is a function of
the input declaration alone (the embedding of `nullable` is a pure function;
the source reads no environment, no files and no mutable global state), so
any two runs on equal inputs produce equal output. -/
theorem nullable_deterministic (i j : DeriveInput) (h : i = j) :
    nullable i = nullable j := by
  rw [h]

/-- Witness for C9 at the crate's test struct. -/
theorem nullable_deterministic_witness :
    exInput = exInput ∧ nullable exInput = nullable exInput :=
  ⟨rfl, nullable_deterministic exInput exInput rfl⟩

end NullableStruct
